import Mathlib

/-!
# Verification of the `LiveSession` voice-session orchestrator

A shallow embedding of `src/components/LiveSession.tsx` (the real-time voice
session orchestrator of the astro-buddy repository) together with proofs of
the frozen specification claims.

Modelling conventions:
* Audio-clock times and durations are rationals (`ℚ`); the source computes
  with JavaScript numbers, and every operation used (max, addition) is exact,
  so `ℚ` is a faithful carrier.
* Audio samples are rationals; PCM16 integer samples are `ℤ` wrapped to the
  16-bit signed range exactly as JavaScript's `Int16Array` element conversion
  does (truncate toward zero, then wrap modulo 2^16).
* React `useRef`/`useState` cells become fields of a `SessionState` record;
  each handler of the source becomes a state-transition function, decomposed
  into one function per source statement group so that each can be diffed
  against the corresponding lines.
* `setTimeout(.., 5000)` clears of the transcript become a multiset of
  pending absolute firing times (`pendingClears`); a timed driver fires every
  due timer before delivering the next event, matching the single-threaded
  event loop.
-/

/-- Lifecycle state of a Web Audio `AudioContext`. -/
inductive CtxState
  | running
  | suspended
  | closed
deriving DecidableEq, Repr

/-- The user profile set by the `set_user_profile` tool
(`src/types`, `UserProfile`): name, sun sign, rashi. -/
structure UserProfile where
  name : String
  sunSign : String
  rashi : String
deriving DecidableEq, Repr

/-- One entry of `message.toolCall.functionCalls`: an id, a tool name and
the (string) arguments read from `fc.args`. -/
structure FunctionCall where
  id : String
  name : String
  args : UserProfile
deriving DecidableEq, Repr

/-- One element of the outbound `functionResponses` batch produced by the
tool-call branch of `onmessage`. -/
structure ToolResponse where
  id : String
  name : String
  result : String
deriving DecidableEq, Repr

/-- An inbound `LiveServerMessage` restricted to the fields `onmessage`
inspects: an optional tool-call batch, optional inline audio (represented by
the output clock's value at arrival and the decoded buffer's duration),
an optional transcription fragment, and the `turnComplete` / `interrupted`
flags.  A single message may carry several of these at once. -/
structure InboundMessage where
  toolCalls : Option (List FunctionCall)
  audio : Option (ℚ × ℚ)
  transcription : Option String
  turnComplete : Bool
  interrupted : Bool
deriving DecidableEq, Repr

/-- The mutable state of one `LiveSession` component instance.  Fields map
one-to-one onto the refs and state hooks of the source, plus append-only
logs recording externally visible effects (track stopping, `close()` calls,
`source.stop()` calls, scheduled start times, outbound audio frames). -/
@[ext]
structure SessionState where
  /-- Mirrors `sessionPromiseRef.current !== null`. -/
  sessionOpen : Bool
  /-- Mirrors `isConnected`. -/
  connected : Bool
  /-- Mirrors `streamRef.current !== null`. -/
  stream : Bool
  /-- whether `track.stop()` has been invoked on the capture stream's tracks -/
  tracksStopped : Bool
  /-- Mirrors `inputAudioContextRef.current` (none = nulled) with its state. -/
  inputCtx : Option CtxState
  /-- Mirrors `outputAudioContextRef.current` (none = nulled) with its state. -/
  outputCtx : Option CtxState
  /-- log of `AudioContext.close()` invocations ("input" / "output") -/
  closeLog : List String
  /-- Mirrors `isMuted`. -/
  muted : Bool
  /-- Mirrors `sourcesRef.current`, as the list of ids of active playback sources. -/
  sources : List ℕ
  /-- fresh-id counter for playback sources -/
  srcCounter : ℕ
  /-- log of ids on which `source.stop()` was invoked -/
  stoppedLog : List ℕ
  /-- Mirrors `nextStartTimeRef.current`. -/
  nextStartTime : ℚ
  /-- the `isTalking` signal (`setTalkingState`) -/
  talking : Bool
  /-- the `isAnalyzing` signal (`setAnalyzingState`) -/
  analyzing : Bool
  /-- Mirrors `userProfile`. -/
  userProfile : Option UserProfile
  /-- Mirrors `transcript`. -/
  transcript : String
  /-- absolute firing times of pending `setTimeout(() => setTranscript(""))` -/
  pendingClears : List ℚ
  /-- log of scheduled playback start times (`source.start(t)`) -/
  startLog : List ℚ
  /-- log of outbound tool responses (`sendToolResponse`) -/
  responses : List ToolResponse
  /-- log of outbound audio frames (`sendRealtimeInput`) -/
  sentFrames : List (List ℤ)

/-- The state of a freshly opened session (`onopen` has run: connection
accepted, capture stream held, both contexts created and running, all
cursors/flags at their initial values). -/
def SessionState.opened : SessionState where
  sessionOpen := true
  connected := true
  stream := true
  tracksStopped := false
  inputCtx := some CtxState.running
  outputCtx := some CtxState.running
  closeLog := []
  muted := false
  sources := []
  srcCounter := 0
  stoppedLog := []
  nextStartTime := 0
  talking := false
  analyzing := false
  userProfile := none
  transcript := ""
  pendingClears := []
  startLog := []
  responses := []
  sentFrames := []

/-! ## PCM16 codecs (`createBlob` / capture loop, and `decodeAudioData`) -/

/-- JavaScript number-to-integer truncation (toward zero), as performed by
assignment into an `Int16Array` before wrapping. -/
def jsTrunc (q : ℚ) : ℤ :=
  if q < 0 then -⌊-q⌋ else ⌊q⌋

/-- Wrap an integer into the signed 16-bit range, as `Int16Array` element
conversion does (modulo 2^16, re-centred on `[-32768, 32767]`). -/
def toInt16 (n : ℤ) : ℤ :=
  (n + 32768) % 65536 - 32768

/-- The capture encoder: `int16[i] = data[i] * 32768`
(source lines 189–194 and `createBlob`). -/
def encodeSample (x : ℚ) : ℤ :=
  toInt16 (jsTrunc (x * 32768))

/-- The playback decoder: `channelData[i] = dataInt16[i] / 32768.0`
(`decodeAudioData`, source line 47). -/
def decodeSample (v : ℤ) : ℚ :=
  (v : ℚ) / 32768

/-- Encoding of a whole captured frame. -/
def encodeFrame (frame : List ℚ) : List ℤ :=
  frame.map encodeSample

/-! ## Teardown (`cleanup`, source lines 93–125)

Each stage mirrors one statement group of `cleanup`, in source order. -/

/-- Lines 94–101: resolve-and-close the session promise, null the ref. -/
def sessionClosed (s : SessionState) : SessionState :=
  { s with sessionOpen := false }

/-- Lines 102–105: stop each track of the capture stream, null the ref. -/
def stopTracks (s : SessionState) : SessionState :=
  if s.stream then { s with tracksStopped := true, stream := false } else s

/-- Whether the guard `ref.current && ref.current.state !== 'closed'` of
lines 108 / 113 lets a `close()` call through. -/
def needsClose : Option CtxState → Bool
  | some c => c != CtxState.closed
  | none => false

/-- Models `AudioContext.close()`: raises `InvalidStateError` on an already closed
context, otherwise transitions it to `closed`. -/
def closeCtx (c : CtxState) : Except String CtxState :=
  if c = CtxState.closed then
    Except.error "InvalidStateError: cannot close a closed AudioContext"
  else
    Except.ok CtxState.closed

/-- Lines 108–111 with fallibility explicit: close the input context only
when present and not already closed, then null the ref. -/
def closeInputRefE (s : SessionState) : Except String SessionState :=
  match s.inputCtx with
  | some c =>
      if c ≠ CtxState.closed then do
        let _ ← closeCtx c
        pure { s with inputCtx := none, closeLog := s.closeLog ++ ["input"] }
      else pure { s with inputCtx := none }
  | none => pure s

/-- Lines 113–116, as `closeInputRefE` but for the output context. -/
def closeOutputRefE (s : SessionState) : Except String SessionState :=
  match s.outputCtx with
  | some c =>
      if c ≠ CtxState.closed then do
        let _ ← closeCtx c
        pure { s with outputCtx := none, closeLog := s.closeLog ++ ["output"] }
      else pure { s with outputCtx := none }
  | none => pure s

/-- The (always successful) effect of lines 108–111. -/
def closeInputRef (s : SessionState) : SessionState :=
  { s with inputCtx := none
         , closeLog := s.closeLog ++ (if needsClose s.inputCtx then ["input"] else []) }

/-- The (always successful) effect of lines 113–116. -/
def closeOutputRef (s : SessionState) : SessionState :=
  { s with outputCtx := none
         , closeLog := s.closeLog ++ (if needsClose s.outputCtx then ["output"] else []) }

/-- Lines 118–121: `source.stop()` on every active source, then clear. -/
def stopAllSources (s : SessionState) : SessionState :=
  { s with stoppedLog := s.stoppedLog ++ s.sources, sources := [] }

/-- Lines 122–124: lower the connected / talking / analyzing signals. -/
def lowerFlags (s : SessionState) : SessionState :=
  { s with connected := false, talking := false, analyzing := false }

/-- Models `cleanup` with the fallibility of `close()` visible.  Note the routine
never touches `nextStartTimeRef`. -/
def cleanupE (s : SessionState) : Except String SessionState := do
  let s1 ← closeInputRefE (stopTracks (sessionClosed s))
  let s2 ← closeOutputRefE s1
  pure (lowerFlags (stopAllSources s2))

/-- The total result of `cleanup`; `cleanupE_eq_ok` proves the fallible
routine always succeeds with this value. -/
def cleanup (s : SessionState) : SessionState :=
  lowerFlags (stopAllSources (closeOutputRef (closeInputRef (stopTracks (sessionClosed s)))))

theorem closeInputRef_of_none {s : SessionState} (h : s.inputCtx = none) :
    closeInputRef s = s := by
  ext <;> simp [closeInputRef, h, needsClose]

theorem closeOutputRef_of_none {s : SessionState} (h : s.outputCtx = none) :
    closeOutputRef s = s := by
  ext <;> simp [closeOutputRef, h, needsClose]

theorem closeInputRefE_eq (s : SessionState) :
    closeInputRefE s = Except.ok (closeInputRef s) := by
  cases h : s.inputCtx with
  | none => simp [closeInputRefE, h, closeInputRef_of_none h, pure, Except.pure]
  | some c =>
      by_cases hc : c = CtxState.closed <;>
        simp [closeInputRefE, closeInputRef, closeCtx, needsClose, h, hc,
              Bind.bind, Except.bind, pure, Except.pure]

theorem closeOutputRefE_eq (s : SessionState) :
    closeOutputRefE s = Except.ok (closeOutputRef s) := by
  cases h : s.outputCtx with
  | none => simp [closeOutputRefE, h, closeOutputRef_of_none h, pure, Except.pure]
  | some c =>
      by_cases hc : c = CtxState.closed <;>
        simp [closeOutputRefE, closeOutputRef, closeCtx, needsClose, h, hc,
              Bind.bind, Except.bind, pure, Except.pure]

theorem cleanupE_eq_ok (s : SessionState) : cleanupE s = Except.ok (cleanup s) := by
  unfold cleanupE cleanup
  rw [closeInputRefE_eq]
  simp only [Bind.bind, Except.bind]
  rw [closeOutputRefE_eq]
  simp [pure, Except.pure]

/-- The fields of `cleanup`'s result, in closed form. -/
theorem cleanup_eq (s : SessionState) :
    cleanup s =
      { s with
          sessionOpen := false
        , connected := false
        , stream := false
        , tracksStopped := s.stream || s.tracksStopped
        , inputCtx := none
        , outputCtx := none
        , closeLog := s.closeLog
              ++ (if needsClose s.inputCtx then ["input"] else [])
              ++ (if needsClose s.outputCtx then ["output"] else [])
        , sources := []
        , stoppedLog := s.stoppedLog ++ s.sources
        , talking := false
        , analyzing := false } := by
  by_cases hst : s.stream <;>
    ext <;>
      simp [cleanup, lowerFlags, stopAllSources, closeOutputRef, closeInputRef,
            stopTracks, sessionClosed, hst]

/-! ## Capture pipeline (`scriptProcessor.onaudioprocess`, lines 185–211) -/

/-- One capture callback: resume the capture clock if it is suspended
(line 186), drop the frame entirely when muted (line 187), otherwise
PCM16-encode the frame and send it (lines 189–210). -/
def onAudioProcess (s : SessionState) (frame : List ℚ) : SessionState :=
  let s :=
    if s.inputCtx = some CtxState.suspended then
      { s with inputCtx := some CtxState.running }
    else s
  if s.muted then s
  else { s with sentFrames := s.sentFrames ++ [encodeFrame frame] }

/-- Models `toggleMute` (lines 323–329): when a capture context is held, resume it
if currently muted and suspend it otherwise; then flip the mute flag. -/
def toggleMute (s : SessionState) : SessionState :=
  let s1 :=
    match s.inputCtx with
    | some _ =>
        if s.muted then { s with inputCtx := some CtxState.running }
        else { s with inputCtx := some CtxState.suspended }
    | none => s
  { s1 with muted := !s1.muted }

/-! ## Inbound message dispatch (`onmessage`, lines 216–298)

The five branches run in source order on each message; each branch is one
stage function. -/

/-- One iteration of the tool-call loop (lines 221–243): `set_user_profile`
stores the profile, stops analyzing and queues a success acknowledgement;
`start_analysis` raises the analyzing flag and queues an acknowledgement;
any other name is ignored. -/
def processToolCall (s : SessionState) (fc : FunctionCall) : SessionState :=
  if fc.name = "set_user_profile" then
    { s with
        userProfile := some fc.args
      , analyzing := false
      , responses := s.responses ++ [⟨fc.id, fc.name, "Profile set successfully on UI."⟩] }
  else if fc.name = "start_analysis" then
    { s with
        analyzing := true
      , responses := s.responses ++ [⟨fc.id, fc.name, "Animation started."⟩] }
  else s

/-- Branch 1 of `onmessage` (lines 218–253). -/
def stageTools (m : InboundMessage) (s : SessionState) : SessionState :=
  match m.toolCalls with
  | some fcs => fcs.foldl processToolCall s
  | none => s

/-- The audio-output branch body (lines 256–274): raise the talking signal,
then — only if the output context ref is still non-null — bump the cursor to
`max(nextStartTime, ctx.currentTime)`, schedule the buffer at the cursor,
advance the cursor by the buffer's duration, and register the source. -/
def processAudio (s : SessionState) (clock dur : ℚ) : SessionState :=
  let s := { s with talking := true }
  match s.outputCtx with
  | some _ =>
      let start := max s.nextStartTime clock
      { s with
          nextStartTime := start + dur
        , sources := s.sources ++ [s.srcCounter]
        , srcCounter := s.srcCounter + 1
        , startLog := s.startLog ++ [start] }
  | none => s

/-- Branch 2 of `onmessage` (lines 255–275). -/
def stageAudio (m : InboundMessage) (s : SessionState) : SessionState :=
  match m.audio with
  | some (clock, dur) => processAudio s clock dur
  | none => s

/-- The transcript update of lines 280–283: replace when the accumulated
transcript already exceeds 200 characters, append otherwise. -/
def appendFragment (prev text : String) : String :=
  if prev.length > 200 then text else prev ++ text

/-- Branch 3 of `onmessage` (lines 278–284). -/
def stageTranscription (m : InboundMessage) (s : SessionState) : SessionState :=
  match m.transcription with
  | some text => { s with transcript := appendFragment s.transcript text }
  | none => s

/-- The delay of `setTimeout(() => setTranscript(""), 5000)` in seconds. -/
def turnCompleteDelay : ℚ := 5

/-- Branch 4 of `onmessage` (lines 286–288): schedule a transcript clear
`turnCompleteDelay` after now.  Nothing ever cancels it. -/
def stageTurnComplete (now : ℚ) (m : InboundMessage) (s : SessionState) : SessionState :=
  if m.turnComplete then
    { s with pendingClears := s.pendingClears ++ [now + turnCompleteDelay] }
  else s

/-- The interrupted branch body (lines 291–296): stop every active source,
clear the set, reset the cursor, lower talking and analyzing, clear the
transcript.  Pending scheduled clears are untouched (the source never calls
`clearTimeout`). -/
def processInterrupted (s : SessionState) : SessionState :=
  { s with
      stoppedLog := s.stoppedLog ++ s.sources
    , sources := []
    , nextStartTime := 0
    , talking := false
    , analyzing := false
    , transcript := "" }

/-- Branch 5 of `onmessage` (lines 290–297). -/
def stageInterrupted (m : InboundMessage) (s : SessionState) : SessionState :=
  if m.interrupted then processInterrupted s else s

/-- Models `onmessage`: the five branches in source order. -/
def handleMessage (s : SessionState) (now : ℚ) (m : InboundMessage) : SessionState :=
  stageInterrupted m
    (stageTurnComplete now m (stageTranscription m (stageAudio m (stageTools m s))))

/-- The `ended` listener of a playback source (lines 267–270): drop the
source from the active set and, exactly when the set became empty, lower the
talking signal. -/
def handleSourceEnded (s : SessionState) (id : ℕ) : SessionState :=
  let remaining := s.sources.erase id
  { s with
      sources := remaining
    , talking := if remaining.isEmpty then false else s.talking }

/-! ## Timed event driver -/

/-- An event of the single-threaded session event loop. -/
inductive SessionEvent
  | inbound (m : InboundMessage)
  | sourceEnded (id : ℕ)
  | teardown
deriving DecidableEq, Repr

/-- Fire every pending transcript clear whose scheduled time has been
reached: each firing sets the transcript to `""`. -/
def fireDueClears (s : SessionState) (now : ℚ) : SessionState :=
  { s with
      transcript := if s.pendingClears.any (fun c => decide (c ≤ now)) then "" else s.transcript
    , pendingClears := s.pendingClears.filter (fun c => decide (now < c)) }

/-- Dispatch one event. -/
def handleEvent (now : ℚ) (s : SessionState) : SessionEvent → SessionState
  | SessionEvent.inbound m => handleMessage s now m
  | SessionEvent.sourceEnded id => handleSourceEnded s id
  | SessionEvent.teardown => cleanup s

/-- Run a timed event list: before each event is delivered, every timer due
at its timestamp fires. -/
def runSession (s : SessionState) : List (ℚ × SessionEvent) → SessionState
  | [] => s
  | (t, e) :: rest => runSession (handleEvent t (fireDueClears s t) e) rest

/-- The transcript visible at time `tEnd`, after all events and all timers
due by `tEnd` have run. -/
def observeTranscript (s : SessionState) (evs : List (ℚ × SessionEvent)) (tEnd : ℚ) : String :=
  (fireDueClears (runSession s evs) tEnd).transcript

/-! ## The playback scheduling recurrence in isolation (lines 263–272)

`schedStarts next chunks` lists the scheduled start time of each chunk, a
chunk being the pair (output-clock value at arrival, buffer duration);
`nextStartTimeRef` starts at 0 for the first chunk of a session. -/

def schedStarts : ℚ → List (ℚ × ℚ) → List ℚ
  | _, [] => []
  | next, (clock, dur) :: rest =>
      let start := max next clock
      start :: schedStarts (start + dur) rest

/-- Total duration of a chunk list. -/
def sumDurations (chunks : List (ℚ × ℚ)) : ℚ :=
  (chunks.map Prod.snd).sum

/-- Modelled from the spec's words (not from the source), for comparison:
the claimed closed form of the i-th scheduled start time,
`max(0, outputClockAtArrival_i, Σ_{k<i} d_k)`. -/
def specClaimedStart (chunks : List (ℚ × ℚ)) (i : ℕ) : ℚ :=
  max 0 (max (chunks.getD i (0, 0)).1 (sumDurations (chunks.take i)))

/-! ## Consistency predicates used by the claims -/

/-- The spec's invariant 2: the talking signal is raised exactly when the
active-source set is non-empty. -/
def talkingConsistent (s : SessionState) : Bool :=
  s.talking == !s.sources.isEmpty

/-- Every inbound audio chunk in the event list is delivered while the
output context ref is non-null (checked against the evolving state). -/
def audioSafe (s : SessionState) : List (ℚ × SessionEvent) → Bool
  | [] => true
  | (t, e) :: rest =>
      (match e with
       | SessionEvent.inbound m => !m.audio.isSome || s.outputCtx.isSome
       | _ => true)
      && audioSafe (handleEvent t (fireDueClears s t) e) rest

/-! ## Reusable concrete messages -/

/-- A message carrying only `serverContent.interrupted`. -/
def interruptedMessage : InboundMessage :=
  ⟨none, none, none, false, true⟩

/-- A message carrying only `serverContent.turnComplete`. -/
def turnCompleteMessage : InboundMessage :=
  ⟨none, none, none, true, false⟩

/-- A message carrying only inline audio. -/
def audioOnlyMessage (clock dur : ℚ) : InboundMessage :=
  ⟨none, some (clock, dur), none, false, false⟩

/-- A message carrying a single tool call. -/
def toolOnlyMessage (fc : FunctionCall) : InboundMessage :=
  ⟨some [fc], none, none, false, false⟩

/-! ## Helper lemmas -/

theorem jsTrunc_intCast (n : ℤ) : jsTrunc (n : ℚ) = n := by
  unfold jsTrunc
  split
  · rw [← Int.cast_neg, Int.floor_intCast]; ring
  · exact Int.floor_intCast n

theorem toInt16_of_range (v : ℤ) (h1 : -32768 ≤ v) (h2 : v ≤ 32767) :
    toInt16 v = v := by
  unfold toInt16
  omega

theorem cleanup_idem (s : SessionState) : cleanup (cleanup s) = cleanup s := by
  rw [cleanup_eq (cleanup s), cleanup_eq s]
  ext <;> simp [needsClose]

/-! ## C10 — the playback decoder inverts the capture encoder -/

/-- Claim C10 (confirmed): for every 16-bit signed integer sample `v`, the
playback decoder maps it to `v / 32768`, and re-encoding that value
(multiplying by 32768, truncating, and wrapping to 16 bits as `Int16Array`
assignment does) yields `v` again.  All intermediate values are exactly
representable in binary64, so the rational model coincides with the
JavaScript computation. -/
theorem claim_C10_roundtrip (v : ℤ) (h1 : -32768 ≤ v) (h2 : v ≤ 32767) :
    decodeSample v = (v : ℚ) / 32768 ∧ encodeSample (decodeSample v) = v := by
  refine ⟨rfl, ?_⟩
  unfold encodeSample decodeSample
  rw [div_mul_cancel₀ _ (by norm_num : (32768 : ℚ) ≠ 0), jsTrunc_intCast]
  exact toInt16_of_range v h1 h2

/-- Witness for C10 at the extreme representable sample `v = -32768`. -/
theorem claim_C10_witness :
    (-32768 : ℤ) ≤ -32768 ∧ (-32768 : ℤ) ≤ 32767 ∧
      (decodeSample (-32768) = ((-32768 : ℤ) : ℚ) / 32768
       ∧ encodeSample (decodeSample (-32768)) = -32768) :=
  ⟨by norm_num, by norm_num,
    claim_C10_roundtrip (-32768) (by norm_num) (by norm_num)⟩

/-! ## C3 — teardown is idempotent and error-free -/

/-- Claim C3 (confirmed): the teardown routine never raises (the `close()`
calls are guarded by the not-already-closed check), running it on an
already-torn-down state is a no-op, and after any number of invocations the
talking and analyzing signals are lowered and the connection is closed. -/
theorem claim_C3_cleanup_idempotent (s : SessionState) :
    cleanupE s = Except.ok (cleanup s)
    ∧ cleanupE (cleanup s) = Except.ok (cleanup s)
    ∧ (cleanup s).talking = false
    ∧ (cleanup s).analyzing = false
    ∧ (cleanup s).connected = false
    ∧ (cleanup s).sessionOpen = false := by
  refine ⟨cleanupE_eq_ok s, ?_, ?_, ?_, ?_, ?_⟩
  · rw [cleanupE_eq_ok (cleanup s), cleanup_idem s]
  all_goals simp [cleanup_eq]

/-! ## C4 — what a single teardown invocation does -/

/-- Counterexample to claim C4: teardown does not reset the scheduling
cursor.  On a state whose cursor is 7, `cleanup` leaves it at 7, not 0
(`cleanup` never writes `nextStartTimeRef`; only the `interrupted` branch of
`onmessage` does). -/
theorem claim_C4_counterexample :
    (cleanup { SessionState.opened with nextStartTime := 7 }).nextStartTime = 7
    ∧ (7 : ℚ) ≠ 0 := by
  constructor
  · simp [cleanup_eq]
  · norm_num

/-- Claim C4 as amended (proved): a single teardown invocation stops the
capture stream's tracks (when a stream is held), nulls both context refs and
attempts `close()` on each exactly when it is present and not already
closed, stops every active playback source and clears the set — but leaves
the scheduler cursor `nextStartTime` unchanged. -/
theorem claim_C4_amended (s : SessionState) :
    (cleanup s).tracksStopped = (s.stream || s.tracksStopped)
    ∧ (cleanup s).stream = false
    ∧ (cleanup s).inputCtx = none
    ∧ (cleanup s).outputCtx = none
    ∧ (cleanup s).closeLog = s.closeLog
        ++ (if needsClose s.inputCtx then ["input"] else [])
        ++ (if needsClose s.outputCtx then ["output"] else [])
    ∧ (cleanup s).stoppedLog = s.stoppedLog ++ s.sources
    ∧ (cleanup s).sources = []
    ∧ (cleanup s).nextStartTime = s.nextStartTime := by
  refine ⟨?_, ?_, ?_, ?_, ?_, ?_, ?_, ?_⟩ <;> simp [cleanup_eq]

/-! ## C2 — the interrupted branch -/

/-- Claim C2 (confirmed): processing an `Interrupted` message, from any
prior state and regardless of how many sources are active, stops every
active playback source, empties the active set, resets the scheduling
cursor to 0, clears the transcript, and lowers both the talking and the
analyzing signals. -/
theorem claim_C2_interrupted_reset (s : SessionState) (now : ℚ) :
    (handleMessage s now interruptedMessage).sources = []
    ∧ (handleMessage s now interruptedMessage).nextStartTime = 0
    ∧ (handleMessage s now interruptedMessage).transcript = ""
    ∧ (handleMessage s now interruptedMessage).talking = false
    ∧ (handleMessage s now interruptedMessage).analyzing = false
    ∧ (handleMessage s now interruptedMessage).stoppedLog = s.stoppedLog ++ s.sources :=
  ⟨rfl, rfl, rfl, rfl, rfl, rfl⟩

/-! ## C6 — the set_user_profile tool call -/

/-- Claim C6 (confirmed): from any prior state, processing a
`set_user_profile` tool call sets the profile to exactly the three supplied
strings, lowers the analyzing flag, and queues a success acknowledgement
echoing the call's identifier. -/
theorem claim_C6_set_user_profile (s : SessionState) (now : ℚ) (fc : FunctionCall)
    (h : fc.name = "set_user_profile") :
    (handleMessage s now (toolOnlyMessage fc)).userProfile = some fc.args
    ∧ (handleMessage s now (toolOnlyMessage fc)).analyzing = false
    ∧ (handleMessage s now (toolOnlyMessage fc)).responses
        = s.responses ++ [⟨fc.id, fc.name, "Profile set successfully on UI."⟩] := by
  refine ⟨?_, ?_, ?_⟩ <;>
    simp [handleMessage, stageInterrupted, stageTurnComplete, stageTranscription,
          stageAudio, stageTools, toolOnlyMessage, processToolCall, h]

/-- Witness for C6 at the spec's example call, from the freshly opened
state. -/
theorem claim_C6_witness :
    (FunctionCall.mk "call-1" "set_user_profile" ⟨"Asha", "Leo", "Simha"⟩).name
        = "set_user_profile"
    ∧ ((handleMessage SessionState.opened 0
          (toolOnlyMessage ⟨"call-1", "set_user_profile", ⟨"Asha", "Leo", "Simha"⟩⟩)).userProfile
        = some ⟨"Asha", "Leo", "Simha"⟩
      ∧ (handleMessage SessionState.opened 0
          (toolOnlyMessage ⟨"call-1", "set_user_profile", ⟨"Asha", "Leo", "Simha"⟩⟩)).analyzing
        = false
      ∧ (handleMessage SessionState.opened 0
          (toolOnlyMessage ⟨"call-1", "set_user_profile", ⟨"Asha", "Leo", "Simha"⟩⟩)).responses
        = SessionState.opened.responses
            ++ [⟨"call-1", "set_user_profile", "Profile set successfully on UI."⟩]) :=
  ⟨rfl, claim_C6_set_user_profile SessionState.opened 0
      ⟨"call-1", "set_user_profile", ⟨"Asha", "Leo", "Simha"⟩⟩ rfl⟩

/-! ## C9 — transcript clearing after TurnComplete / Interrupted -/

/-- The two-fragment, one-turn event list used to refute claim C9: the
fragment "a" and `turnComplete` arrive at time 0, the fragment "b" at
time 3. -/
def demoC9Events : List (ℚ × SessionEvent) :=
  [(0, SessionEvent.inbound ⟨none, none, some "a", true, false⟩),
   (3, SessionEvent.inbound ⟨none, none, some "b", false, false⟩)]

/-- Counterexample to claim C9: the scheduled clear fires 5 seconds (not 6)
after `TurnComplete`, and it erases content that arrived after it was
scheduled.  The transcript is "ab" at time 4, yet empty already at time 5 —
before the claimed 6-second mark, and despite the newer fragment "b" that
arrived at time 3. -/
theorem claim_C9_counterexample :
    observeTranscript SessionState.opened demoC9Events 4 = "ab"
    ∧ observeTranscript SessionState.opened demoC9Events 5 = "" := by
  have h3 : ¬ (turnCompleteDelay ≤ 3) := by norm_num [turnCompleteDelay]
  have h3' : ((3 : ℚ) < turnCompleteDelay) := by norm_num [turnCompleteDelay]
  have h4 : ¬ (turnCompleteDelay ≤ 4) := by norm_num [turnCompleteDelay]
  have h4' : ((4 : ℚ) < turnCompleteDelay) := by norm_num [turnCompleteDelay]
  have h5 : (turnCompleteDelay ≤ 5) := by norm_num [turnCompleteDelay]
  have h5' : ¬ ((5 : ℚ) < turnCompleteDelay) := by norm_num [turnCompleteDelay]
  have l1 : ¬ ("".length > 200) := by decide
  have l2 : ¬ ("a".length > 200) := by decide
  have e1 : ("" ++ "a" : String) = "a" := rfl
  have e2 : ("a" ++ "b" : String) = "ab" := rfl
  constructor <;>
    simp [observeTranscript, runSession, demoC9Events, fireDueClears, handleEvent,
          handleMessage, stageTools, stageAudio, stageTranscription, stageTurnComplete,
          stageInterrupted, appendFragment, SessionState.opened,
          h3, h3', h4, h4', h5, h5', l1, l2, e1, e2]

/-- Claim C9 as amended (proved): `TurnComplete` schedules a transcript
clear exactly 5 seconds later and leaves the transcript itself untouched;
`Interrupted` clears the transcript immediately but does not cancel any
pending scheduled clear; and a pending clear whose time has come always
empties the transcript, regardless of what arrived in the meantime. -/
theorem claim_C9_amended (s : SessionState) (now : ℚ) :
    (handleMessage s now turnCompleteMessage).pendingClears = s.pendingClears ++ [now + 5]
    ∧ (handleMessage s now turnCompleteMessage).transcript = s.transcript
    ∧ (handleMessage s now interruptedMessage).transcript = ""
    ∧ (handleMessage s now interruptedMessage).pendingClears = s.pendingClears
    ∧ (fireDueClears s now).transcript
        = (if s.pendingClears.any (fun c => decide (c ≤ now)) then "" else s.transcript) := by
  refine ⟨?_, rfl, rfl, rfl, rfl⟩
  simp [handleMessage, stageInterrupted, stageTurnComplete, stageTranscription,
        stageAudio, stageTools, turnCompleteMessage, turnCompleteDelay]

/-! ## C8 — toggleMute and the audio clocks -/

/-- Counterexample to claim C8: `toggleMute` does not leave the capture
clock unchanged.  From the freshly opened state (running capture clock,
unmuted), toggling mute suspends the capture clock. -/
theorem claim_C8_counterexample :
    (toggleMute SessionState.opened).inputCtx = some CtxState.suspended
    ∧ SessionState.opened.inputCtx = some CtxState.running
    ∧ (toggleMute SessionState.opened).inputCtx ≠ SessionState.opened.inputCtx := by
  refine ⟨rfl, rfl, ?_⟩
  decide

/-- Claim C8 as amended (proved): `toggleMute` flips the transmission gate
and suspends the capture clock when muting (resumes it when unmuting, and
touches no clock when the ref is nulled); the playback clock, the session
ref and the connection flag are unchanged. -/
theorem claim_C8_amended (s : SessionState) :
    (toggleMute s).muted = !s.muted
    ∧ (toggleMute s).outputCtx = s.outputCtx
    ∧ (toggleMute s).sessionOpen = s.sessionOpen
    ∧ (toggleMute s).connected = s.connected
    ∧ (toggleMute s).inputCtx
        = (match s.inputCtx with
           | some _ =>
               if s.muted then some CtxState.running else some CtxState.suspended
           | none => none) := by
  cases h : s.inputCtx <;> by_cases hm : s.muted <;>
    simp [toggleMute, h, hm]

/-! ## C7 — the mute gate drops frames -/

theorem onAudioProcess_muted {s : SessionState} (f : List ℚ) (h : s.muted = true) :
    (onAudioProcess s f).sentFrames = s.sentFrames
    ∧ (onAudioProcess s f).muted = true := by
  by_cases hc : s.inputCtx = some CtxState.suspended <;>
    simp [onAudioProcess, hc, h]

/-- Claim C7 (confirmed): while mute is set, no outbound audio frame is
produced for any number of capture callbacks (each frame is dropped, never
queued), and the very first callback after mute is cleared transmits its
frame. -/
theorem claim_C7_mute_gate (s : SessionState) (frames : List (List ℚ))
    (h : s.muted = true) :
    ((frames.foldl onAudioProcess s).sentFrames = s.sentFrames)
    ∧ ∀ f, (onAudioProcess (toggleMute s) f).sentFrames
        = s.sentFrames ++ [encodeFrame f] := by
  constructor
  · induction frames generalizing s with
    | nil => rfl
    | cons f rest ih =>
        obtain ⟨h1, h2⟩ := onAudioProcess_muted f h
        simpa [List.foldl_cons, h1] using ih (onAudioProcess s f) h2
  · intro f
    cases hin : s.inputCtx <;>
      simp [toggleMute, onAudioProcess, hin, h]

/-- Witness for C7: from the opened state with mute set, two callbacks send
nothing, and the first callback after unmuting sends the encoded frame. -/
theorem claim_C7_witness :
    ({ SessionState.opened with muted := true } : SessionState).muted = true
    ∧ (([[(1 : ℚ)/2], [0]].foldl onAudioProcess
          { SessionState.opened with muted := true }).sentFrames
        = ({ SessionState.opened with muted := true } : SessionState).sentFrames
      ∧ (onAudioProcess (toggleMute { SessionState.opened with muted := true })
            [(1 : ℚ)/2]).sentFrames
        = ({ SessionState.opened with muted := true } : SessionState).sentFrames
            ++ [encodeFrame [(1 : ℚ)/2]]) :=
  ⟨rfl,
    (claim_C7_mute_gate { SessionState.opened with muted := true } [[(1 : ℚ)/2], [0]] rfl).1,
    (claim_C7_mute_gate { SessionState.opened with muted := true } [[(1 : ℚ)/2], [0]] rfl).2
      [(1 : ℚ)/2]⟩

/-! ## C1 — the scheduled start times of consecutive chunks -/

/-- The i-th scheduled start time of a session's chunk sequence (cursor
starts at 0). -/
def nthStart (chunks : List (ℚ × ℚ)) (i : ℕ) : ℚ :=
  (schedStarts 0 chunks).getD i 0

/-- The output-clock value at arrival of the i-th chunk. -/
def chunkClock (chunks : List (ℚ × ℚ)) (i : ℕ) : ℚ :=
  (chunks.getD i (0, 0)).1

/-- The duration of the i-th chunk. -/
def chunkDur (chunks : List (ℚ × ℚ)) (i : ℕ) : ℚ :=
  (chunks.getD i (0, 0)).2

theorem schedStarts_getD_zero (next : ℚ) (c : ℚ × ℚ) (rest : List (ℚ × ℚ)) :
    (schedStarts next (c :: rest)).getD 0 0 = max next c.1 := by
  rcases c with ⟨cl, d⟩
  rfl

theorem schedStarts_getD_succ (chunks : List (ℚ × ℚ)) (next : ℚ) (i : ℕ)
    (h : i + 1 < chunks.length) :
    (schedStarts next chunks).getD (i + 1) 0
      = max ((schedStarts next chunks).getD i 0 + (chunks.getD i (0, 0)).2)
            (chunks.getD (i + 1) (0, 0)).1 := by
  induction chunks generalizing next i with
  | nil => simp at h
  | cons c rest ih =>
      rcases c with ⟨cl, d⟩
      cases i with
      | zero =>
          cases rest with
          | nil => simp at h
          | cons c2 rest2 =>
              rcases c2 with ⟨cl2, d2⟩
              simp [schedStarts]
      | succ j =>
          have h' : j + 1 < rest.length := by
            simpa [Nat.succ_lt_succ_iff] using h
          simpa [schedStarts] using ih (max next cl + d) j h'

/-- The two-chunk input refuting claim C1: both chunks arrive when the
output clock reads 5 and last 1 second each. -/
def demoChunks : List (ℚ × ℚ) :=
  [(5, 1), (5, 1)]

/-- Counterexample to claim C1: the claimed closed form
`max(0, outputClockAtArrival_i, Σ_{k<i} d_k)` does not describe the code.
With both chunks arriving at clock 5 (durations 1 and 1), the code
schedules the second chunk at 6 = (max 0 5) + 1, while the claimed formula
yields max(0, 5, 1) = 5 — a time at which the first chunk would still be
sounding, so the formula would even overlap the chunks it claims are
non-overlapping. -/
theorem claim_C1_counterexample :
    nthStart demoChunks 1 = 6
    ∧ specClaimedStart demoChunks 1 = 5
    ∧ nthStart demoChunks 1 ≠ specClaimedStart demoChunks 1 := by
  have e1 : nthStart demoChunks 1 = 6 := by
    norm_num [nthStart, demoChunks, schedStarts, max_def]
  have e2 : specClaimedStart demoChunks 1 = 5 := by
    norm_num [specClaimedStart, demoChunks, sumDurations, max_def]
  refine ⟨e1, e2, ?_⟩
  rw [e1, e2]
  norm_num

/-- Claim C1 as amended (proved): before any `Interrupted`, the first
chunk's scheduled start time is `max(0, outputClockAtArrival_1)` and each
subsequent chunk starts at `max(previous start + previous duration,
outputClockAtArrival)`; hence consecutive chunks never overlap, and
whenever a chunk arrives no later than the previous chunk's scheduled end,
it starts exactly at that end — gapless playback. -/
theorem claim_C1_amended (chunks : List (ℚ × ℚ)) (i : ℕ)
    (h : i + 1 < chunks.length) :
    nthStart chunks 0 = max 0 (chunkClock chunks 0)
    ∧ nthStart chunks (i + 1)
        = max (nthStart chunks i + chunkDur chunks i) (chunkClock chunks (i + 1))
    ∧ nthStart chunks i + chunkDur chunks i ≤ nthStart chunks (i + 1)
    ∧ (chunkClock chunks (i + 1) ≤ nthStart chunks i + chunkDur chunks i →
        nthStart chunks (i + 1) = nthStart chunks i + chunkDur chunks i) := by
  have hrec := schedStarts_getD_succ chunks 0 i h
  have h0 : nthStart chunks 0 = max 0 (chunkClock chunks 0) := by
    cases chunks with
    | nil => simp at h
    | cons c rest =>
        simpa [nthStart, chunkClock] using schedStarts_getD_zero 0 c rest
  refine ⟨h0, hrec, ?_, ?_⟩
  · rw [show nthStart chunks (i + 1)
        = max (nthStart chunks i + chunkDur chunks i) (chunkClock chunks (i + 1))
      from hrec]
    exact le_max_left _ _
  · intro hle
    rw [show nthStart chunks (i + 1)
        = max (nthStart chunks i + chunkDur chunks i) (chunkClock chunks (i + 1))
      from hrec]
    exact max_eq_left hle

/-- Witness for C1's amended statement on the concrete two-chunk input. -/
theorem claim_C1_witness :
    0 + 1 < demoChunks.length
    ∧ (nthStart demoChunks 0 = max 0 (chunkClock demoChunks 0)
       ∧ nthStart demoChunks (0 + 1)
           = max (nthStart demoChunks 0 + chunkDur demoChunks 0)
                 (chunkClock demoChunks (0 + 1))
       ∧ nthStart demoChunks 0 + chunkDur demoChunks 0 ≤ nthStart demoChunks (0 + 1)
       ∧ (chunkClock demoChunks (0 + 1)
            ≤ nthStart demoChunks 0 + chunkDur demoChunks 0 →
          nthStart demoChunks (0 + 1)
            = nthStart demoChunks 0 + chunkDur demoChunks 0)) :=
  ⟨by norm_num [demoChunks], claim_C1_amended demoChunks 0 (by norm_num [demoChunks])⟩

/-! ## C5 — the talking signal versus the active-source set -/

theorem talkingConsistent_congr {x y : SessionState}
    (h1 : x.talking = y.talking) (h2 : x.sources = y.sources) :
    talkingConsistent x = talkingConsistent y := by
  simp [talkingConsistent, h1, h2]

theorem processToolCall_preserves (s : SessionState) (fc : FunctionCall) :
    (processToolCall s fc).talking = s.talking
    ∧ (processToolCall s fc).sources = s.sources
    ∧ (processToolCall s fc).outputCtx = s.outputCtx := by
  by_cases h1 : fc.name = "set_user_profile" <;>
    by_cases h2 : fc.name = "start_analysis" <;>
      simp [processToolCall, h1, h2]

theorem foldl_processToolCall_preserves (fcs : List FunctionCall) (s : SessionState) :
    (fcs.foldl processToolCall s).talking = s.talking
    ∧ (fcs.foldl processToolCall s).sources = s.sources
    ∧ (fcs.foldl processToolCall s).outputCtx = s.outputCtx := by
  induction fcs generalizing s with
  | nil => exact ⟨rfl, rfl, rfl⟩
  | cons fc rest ih =>
      obtain ⟨p1, p2, p3⟩ := processToolCall_preserves s fc
      obtain ⟨q1, q2, q3⟩ := ih (processToolCall s fc)
      exact ⟨by rw [List.foldl_cons, q1, p1],
             by rw [List.foldl_cons, q2, p2],
             by rw [List.foldl_cons, q3, p3]⟩

theorem stageTools_preserves (m : InboundMessage) (s : SessionState) :
    (stageTools m s).talking = s.talking
    ∧ (stageTools m s).sources = s.sources
    ∧ (stageTools m s).outputCtx = s.outputCtx := by
  unfold stageTools
  cases m.toolCalls with
  | none => exact ⟨rfl, rfl, rfl⟩
  | some fcs => exact foldl_processToolCall_preserves fcs s

theorem stageTranscription_preserves (m : InboundMessage) (s : SessionState) :
    (stageTranscription m s).talking = s.talking
    ∧ (stageTranscription m s).sources = s.sources := by
  unfold stageTranscription
  cases m.transcription <;> exact ⟨rfl, rfl⟩

theorem stageTurnComplete_preserves (now : ℚ) (m : InboundMessage) (s : SessionState) :
    (stageTurnComplete now m s).talking = s.talking
    ∧ (stageTurnComplete now m s).sources = s.sources := by
  unfold stageTurnComplete
  by_cases h : m.turnComplete <;> simp [h]

theorem talkingConsistent_processInterrupted (s : SessionState) :
    talkingConsistent (processInterrupted s) = true := by
  simp [talkingConsistent, processInterrupted]

theorem talkingConsistent_processAudio (s : SessionState) (clock dur : ℚ)
    (h : s.outputCtx.isSome = true) :
    talkingConsistent (processAudio s clock dur) = true := by
  unfold processAudio
  cases ho : s.outputCtx with
  | none => rw [ho] at h; simp at h
  | some c =>
      have hne : (s.sources ++ [s.srcCounter]).isEmpty = false := by
        cases s.sources <;> rfl
      simp [talkingConsistent, ho, hne]

theorem talkingConsistent_handleMessage (s : SessionState) (now : ℚ)
    (m : InboundMessage)
    (hctx : m.audio.isSome = true → s.outputCtx.isSome = true)
    (hinv : talkingConsistent s = true) :
    talkingConsistent (handleMessage s now m) = true := by
  unfold handleMessage stageInterrupted
  obtain ⟨t1, t2, t3⟩ := stageTools_preserves m s
  have haud : talkingConsistent (stageAudio m (stageTools m s)) = true := by
    unfold stageAudio
    cases ha : m.audio with
    | none =>
        rw [talkingConsistent_congr t1 t2]
        exact hinv
    | some cd =>
        rcases cd with ⟨clock, dur⟩
        refine talkingConsistent_processAudio _ clock dur ?_
        rw [t3]
        exact hctx (by rw [ha]; rfl)
  obtain ⟨r1, r2⟩ := stageTranscription_preserves m (stageAudio m (stageTools m s))
  obtain ⟨u1, u2⟩ :=
    stageTurnComplete_preserves now m (stageTranscription m (stageAudio m (stageTools m s)))
  by_cases hint : m.interrupted
  · simp only [hint, if_pos]
    exact talkingConsistent_processInterrupted _
  · simp only [hint, Bool.false_eq_true, if_neg, not_false_iff]
    rw [talkingConsistent_congr u1 u2, talkingConsistent_congr r1 r2]
    exact haud

theorem talkingConsistent_handleSourceEnded (s : SessionState) (id : ℕ)
    (hinv : talkingConsistent s = true) :
    talkingConsistent (handleSourceEnded s id) = true := by
  unfold handleSourceEnded talkingConsistent
  by_cases h : (s.sources.erase id).isEmpty
  · simp [h]
  · have hs : s.sources.isEmpty = false := by
      cases hs : s.sources with
      | nil => rw [hs] at h; simp at h
      | cons a l => rfl
    have ht : s.talking = true := by
      unfold talkingConsistent at hinv
      rw [hs] at hinv
      simpa using hinv
    simp [h, ht]

theorem talkingConsistent_cleanup (s : SessionState) :
    talkingConsistent (cleanup s) = true := by
  simp [talkingConsistent, cleanup_eq]

/-- Claim C5 as amended (proved): provided every audio chunk is delivered
while the output-clock ref is still non-null, the invariant "the talking
signal is raised iff the active-source set is non-empty" holds after every
processed event (message arrival, source completion, interruption,
teardown).  The claim's extension to chunks arriving after teardown has
nulled the output clock is refuted by `claim_C5_counterexample`. -/
theorem claim_C5_amended (evs : List (ℚ × SessionEvent)) (s : SessionState)
    (hinv : talkingConsistent s = true) (hsafe : audioSafe s evs = true) :
    talkingConsistent (runSession s evs) = true := by
  induction evs generalizing s with
  | nil => exact hinv
  | cons te rest ih =>
      rcases te with ⟨t, e⟩
      rw [runSession]
      cases e with
      | inbound m =>
          simp only [audioSafe, Bool.and_eq_true] at hsafe
          obtain ⟨h1, h2⟩ := hsafe
          refine ih _ ?_ h2
          refine talkingConsistent_handleMessage _ t m ?_ hinv
          intro ha
          rw [ha] at h1
          have hfc : (fireDueClears s t).outputCtx = s.outputCtx := rfl
          rw [hfc]
          simpa using h1
      | sourceEnded id =>
          simp only [audioSafe, Bool.true_and, Bool.and_eq_true, true_and] at hsafe
          exact ih _ (talkingConsistent_handleSourceEnded _ id hinv) hsafe
      | teardown =>
          simp only [audioSafe, Bool.true_and, Bool.and_eq_true, true_and] at hsafe
          exact ih _ (talkingConsistent_cleanup _) hsafe

/-- The trace refuting claim C5: teardown at time 0, then an audio chunk
arrives at time 1, after the output-clock ref has been nulled. -/
def postTeardownEvents : List (ℚ × SessionEvent) :=
  [(0, SessionEvent.teardown),
   (1, SessionEvent.inbound (audioOnlyMessage 0 1))]

/-- Counterexample to claim C5: when an audio chunk arrives after teardown
has nulled the output clock, the handler still raises the talking signal
(line 258 runs before the null check of line 260) but registers no source,
so talking is true while the active-source set is empty — the claimed iff
fails. -/
theorem claim_C5_counterexample :
    (runSession SessionState.opened postTeardownEvents).talking = true
    ∧ (runSession SessionState.opened postTeardownEvents).sources = []
    ∧ talkingConsistent (runSession SessionState.opened postTeardownEvents) = false :=
  ⟨rfl, rfl, rfl⟩

/-- The well-behaved trace used to witness C5's amended statement: a chunk
arrives while the clock is available, its source ends, then an
interruption. -/
def safeEvents : List (ℚ × SessionEvent) :=
  [(0, SessionEvent.inbound (audioOnlyMessage 0 1)),
   (1, SessionEvent.sourceEnded 0),
   (2, SessionEvent.inbound interruptedMessage)]

/-- Witness for C5's amended statement on the concrete safe trace. -/
theorem claim_C5_witness :
    talkingConsistent SessionState.opened = true
    ∧ audioSafe SessionState.opened safeEvents = true
    ∧ talkingConsistent (runSession SessionState.opened safeEvents) = true :=
  ⟨rfl, rfl, claim_C5_amended safeEvents SessionState.opened rfl rfl⟩
